import Mathlib

/-
  Verification development for the retrieval-and-answer pipeline of the
  knowledge-assistance repository (src/core/retrieval.py, src/core/chroma.py,
  src/core/embeddings.py, src/multimodel/chains/formatters.py).

  The Python code is shallowly embedded: pure fragments become Lean functions,
  the external collaborators (Gemini generation provider, Gemini embedding
  provider, the Chroma vector store) become function-valued parameters, and
  raised exceptions become `Except` results.  Provider invocations are logged
  in an explicit call trace so that "no provider is invoked" is a provable
  statement.  Strings model Python `str` at the level of Unicode code points;
  `lower`/`strip` are modelled for the ASCII range, which covers every string
  the verified properties touch.
-/

deriving instance DecidableEq for Except

namespace KA

/-! ## Python string primitives -/

/-- Characters accepted by Python's `str.strip()` and the regex class `\s`
(ASCII range: space, tab, newline, carriage return, vertical tab, form feed). -/
def pyIsSpace (c : Char) : Bool :=
  c = ' ' || c = '\t' || c = '\n' || c = '\r' || c = '\x0b' || c = '\x0c'

/-- Python `str.strip()` on a character list. -/
def pyStripList (cs : List Char) : List Char :=
  ((cs.dropWhile pyIsSpace).reverse.dropWhile pyIsSpace).reverse

/-- Python `str.strip()`. -/
def pyStrip (s : String) : String :=
  ⟨pyStripList s.data⟩

/-- Python `str.lower()` (ASCII model). -/
def pyLower (s : String) : String :=
  ⟨s.data.map Char.toLower⟩

/-- Python's substring operator `pat in hay` on character lists. -/
def containsSub (hay pat : List Char) : Bool :=
  match hay with
  | [] => pat.isEmpty
  | _ :: t => pat.isPrefixOf hay || containsSub t pat

/-- Python's substring operator `pat in hay` on strings. -/
def strContains (hay pat : String) : Bool :=
  containsSub hay.data pat.data

/-- Python `text.split(sep)` for a single-character separator `'\n'`,
on character lists.  `splitNL [] = [[]]`, matching `"".split("\n") == [""]`. -/
def splitNL : List Char → List (List Char)
  | [] => [[]]
  | '\n' :: rest => [] :: splitNL rest
  | c :: rest =>
    match splitNL rest with
    | [] => [[c]]
    | h :: t => (c :: h) :: t

/-! ## Data model (src/schemas.py) -/

/-- A scalar metadata value as stored in Chroma metadata mappings.  The
pipeline only ever stores strings and integers in the fields it reads back. -/
inductive MVal where
  | str (s : String)
  | int (z : Int)
deriving DecidableEq

/-- A Python dict of metadata, modelled as an association list
(first binding wins, as in a dict there is at most one binding per key). -/
abbrev Meta := List (String × MVal)

/-- `m.get(k)` / `k in m` on a metadata dict. -/
def metaLookup (m : Meta) (k : String) : Option MVal :=
  match m with
  | [] => none
  | (k', v) :: rest => if k' = k then some v else metaLookup rest k

/-- Python `str(v)` for the rendered form of a metadata value. -/
def mvalStr : MVal → String
  | .str s => s
  | .int z => toString z

/-- `metadata.get(key, default)` where the caller expects a string
(non-string values are rendered with `str`; the live pipeline only stores
strings under the keys read this way). -/
def pyGetStrD (m : Meta) (k : String) (dflt : String) : String :=
  match metaLookup m k with
  | none => dflt
  | some v => mvalStr v

/-- `metadata.get(key, default)` where the caller expects an integer
(numeric strings are coerced as pydantic would; the live pipeline only stores
integers under the keys read this way). -/
def pyGetIntD (m : Meta) (k : String) (dflt : Int) : Int :=
  match metaLookup m k with
  | none => dflt
  | some (.int z) => z
  | some (.str s) => (s.toInt?).getD 0

/-- `schemas.DocumentChunk`.  pydantic field validation is not modelled;
fields that a constructor call omits take their declared defaults. -/
structure DocumentChunk where
  content : String
  type : String
  page_number : Option Int := none
  uri : Option String := none
  doc_id : Option String := none
  metadata : Option Meta := none
deriving DecidableEq

/-- One entry of `QueryResponse.sources`:
`{"doc_id": ..., "page": ..., "type": ...}`. -/
structure Source where
  doc_id : String
  page : Option Int
  type : String
deriving DecidableEq

/-- Result of `MultimodalRetriever._detect_special_content`: either a dict
`{"type": "table"|"image", "content": text}` or Python `None`. -/
inductive SpecialContent where
  | table (content : String)
  | image (content : String)
deriving DecidableEq

/-- `schemas.QueryResponse`. -/
structure QueryResponse where
  answer : String
  sources : List Source
  formatted_response : Option SpecialContent := none
deriving DecidableEq

/-- The two exception kinds raised by the core pipeline
(`core.exceptions.RetrievalError` / `GenerationError`), each carrying its
human-readable detail string. -/
inductive PipeError where
  | retrieval (msg : String)
  | generation (msg : String)
deriving DecidableEq

/-! ## External collaborators -/

/-- A call to the Gemini generation model, identified by the site that builds
the prompt together with the data interpolated into it (the literal prompt
text is a fixed template around these arguments). -/
inductive GenCall where
  | correction (query : String)
  | splitQ (query : String)
  | answerQ (query : String) (context : String)
deriving DecidableEq

/-- The argument record the Chroma wrapper passes to
`self.collection.query(**query_args)`: the metadata filter, the result limit,
and the optional `query_texts` / `query_embeddings` singleton lists. -/
structure QueryArgs where
  whereDocId : Option String
  whereTypes : Option (List String)
  nResults : Int
  queryTexts : List String
  queryEmbeddings : List (List Rat)
deriving DecidableEq

/-- The raw reply of `collection.query` (first row of each field, as the
wrapper reads them).  `documents` entries may be Python `None`. -/
structure ChromaRaw where
  ids : List String
  documents : List (Option String)
  metadatas : List Meta
  distances : List Rat
deriving DecidableEq

/-- One processed store result, as returned by `ChromaClient.query`. -/
structure ResultItem where
  id : String
  document : String
  metadata : Meta
  score : Rat
deriving DecidableEq

/-- One logged invocation of an external collaborator. -/
inductive ProvCall where
  | genP (c : GenCall)
  | embedP (query : String)
  | storeP (args : QueryArgs)
deriving DecidableEq

/-- The three external collaborators, as total oracles.  A `.error` result of
`gen` or `embed` models a raised provider exception (or, for `gen`, a reply
whose `.text` is `None`). -/
structure Providers where
  gen : GenCall → Except Unit String
  embed : String → Except Unit (List Rat)
  store : QueryArgs → ChromaRaw

/-! ## Chunk splitting (src/core/chroma.py, `split_large_chunks`) -/

/-- `MAX_CHUNK_LENGTH` from src/core/chroma.py. -/
def MAX_CHUNK_LENGTH : Nat := 30000

/-- Fuel-driven core of the slicing comprehension
`[content[i:i+max_len] for i in range(0, len(content), max_len)]`. -/
def chopAux : Nat → List Char → Nat → List (List Char)
  | 0, _, _ => []
  | _ + 1, [], _ => []
  | fuel + 1, l, m => l.take m :: chopAux fuel (l.drop m) m

/-- The slicing comprehension itself; a step of `0` would make Python's
`range` raise, so that case is mapped to the empty list. -/
def chop (l : List Char) (m : Nat) : List (List Char) :=
  if m = 0 then [] else chopAux l.length l m

/-- The per-chunk body of the loop in `ChromaClient.split_large_chunks`:
an oversized chunk becomes its ordered slices, each constructed with the
parent's `metadata`, `type` and `page_number` (the constructor call passes no
`uri` and no `doc_id`, so those fields take their `None` defaults); any other
chunk is appended unchanged. -/
def splitChunkOne (max_len : Nat) (chunk : DocumentChunk) : List DocumentChunk :=
  if chunk.content.length > max_len then
    (chop chunk.content.data max_len).map fun part =>
      { content := ⟨part⟩
        type := chunk.type
        page_number := chunk.page_number
        metadata := chunk.metadata }
  else [chunk]

/-- `ChromaClient.split_large_chunks`. -/
def split_large_chunks (chunks : List DocumentChunk) (max_len : Nat) : List DocumentChunk :=
  chunks.flatMap (splitChunkOne max_len)

/-! ## Store wrapper (src/core/chroma.py, `ChromaClient.query`) -/

/-- Python truthiness of an optional string argument
(`None` and `""` are falsy). -/
def pyTruthyStr : Option String → Bool
  | none => false
  | some s => !s.isEmpty

/-- Python truthiness of an optional list argument
(`None` and `[]` are falsy). -/
def pyTruthyList {α : Type} : Option (List α) → Bool
  | none => false
  | some l => !l.isEmpty

/-- The `query_args` record built by `ChromaClient.query`: the `doc_id` /
`type` filters are added only for truthy arguments, and `query_texts` /
`query_embeddings` are passed only for truthy arguments. -/
def mkQueryArgs (query_text : Option String) (query_embedding : Option (List Rat))
    (document_id : Option String) (filter_types : Option (List String))
    (n_results : Int) : QueryArgs :=
  { whereDocId := if pyTruthyStr document_id then document_id else none
    whereTypes := if pyTruthyList filter_types then filter_types else none
    nResults := n_results
    queryTexts := if pyTruthyStr query_text then [query_text.getD ""] else []
    queryEmbeddings := if pyTruthyList query_embedding then [query_embedding.getD []] else [] }

/-- Alignment of the reply rows, as done by `zip(ids, documents, metadatas,
distances)` (truncating to the shortest list, like Python `zip`). -/
def zip4 {α β γ δ : Type} : List α → List β → List γ → List δ → List (α × β × γ × δ)
  | a :: as_, b :: bs, c :: cs, d :: ds => (a, b, c, d) :: zip4 as_ bs cs ds
  | _, _, _, _ => []

/-- The post-processing loop of `ChromaClient.query`: a `None` document is
replaced by the metadata `caption` when one exists and the row is dropped
otherwise; the score is `1 - distance`. -/
def processReply (raw : ChromaRaw) : List ResultItem :=
  (zip4 raw.ids raw.documents raw.metadatas raw.distances).filterMap
    fun (id_, doc?, meta, dist) =>
      match doc? with
      | some doc => some { id := id_, document := doc, metadata := meta, score := 1 - dist }
      | none =>
        match metaLookup meta "caption" with
        | some v => some { id := id_, document := mvalStr v, metadata := meta, score := 1 - dist }
        | none => none

/-- `ChromaClient.query`.  The `ValueError` for a missing query input becomes
the `.error` branch; otherwise the store oracle is invoked once (logged) and
its reply post-processed. -/
def chromaQuery (store : QueryArgs → ChromaRaw) (query_text : Option String)
    (query_embedding : Option (List Rat)) (document_id : Option String)
    (filter_types : Option (List String)) (n_results : Int) :
    Except String (List ResultItem) × List ProvCall :=
  if !pyTruthyStr query_text && !pyTruthyList query_embedding then
    (.error "Either query_text or query_embedding must be provided", [])
  else
    let args := mkQueryArgs query_text query_embedding document_id filter_types n_results
    (.ok (processReply (store args)), [.storeP args])

/-! ## Retriever (src/core/retrieval.py) -/

/-- `MultimodalRetriever._normalize_question`: `question.strip().lower()`. -/
def normalize_question (question : String) : String :=
  pyLower (pyStrip question)

/-- `MultimodalRetriever._format_results`, per result item. -/
def formatChunk (item : ResultItem) : DocumentChunk :=
  { content := item.document
    type := pyGetStrD item.metadata "type" "text"
    page_number := some (pyGetIntD item.metadata "page" (-1))
    metadata := some item.metadata }

/-- `MultimodalRetriever._format_results`. -/
def formatResults (results : List ResultItem) : List DocumentChunk :=
  results.map formatChunk

/-- `MultimodalRetriever.retrieve`: embed the query, run one filtered store
query, format the results; any failure is re-raised as a `RetrievalError`. -/
def retrieve (P : Providers) (query : String) (document_id : String)
    (filter_types : Option (List String)) (top_k : Int) :
    Except PipeError (List DocumentChunk) × List ProvCall :=
  match P.embed query with
  | .error _ => (.error (.retrieval "Retrieval failed: embedding error"), [.embedP query])
  | .ok emb =>
    match chromaQuery P.store (some query) (some emb) (some document_id) filter_types top_k with
    | (.error msg, log) =>
      (.error (.retrieval ("Retrieval failed: " ++ msg)), .embedP query :: log)
    | (.ok results, log) => (.ok (formatResults results), .embedP query :: log)

/-- `MultimodalRetriever._detect_special_content`: `"```markdown"` substring
first, then `"[Image:"`, else Python `None`. -/
def detectSpecialContent (text : String) : Option SpecialContent :=
  if strContains text "```markdown" then some (.table text)
  else if strContains text "[Image:" then some (.image text)
  else none

/-- `MultimodalRetriever.correct_query`: one generation call; on provider
failure the original query is returned unchanged. -/
def correct_query (gen : GenCall → Except Unit String) (query : String) :
    String × List ProvCall :=
  match gen (.correction query) with
  | .ok t => (pyStrip t, [.genP (.correction query)])
  | .error _ => (query, [.genP (.correction query)])

/-- The usable sub-questions extracted from a split reply:
`[line.strip() for line in text.split("\n") if line.strip()]`. -/
def usableSubs (text : String) : List String :=
  (((splitNL text.data).map fun l => pyStrip ⟨l⟩).filter fun s => !s.isEmpty)

/-- `MultimodalRetriever.split_query_if_needed`: one generation call; the
reply is split into stripped non-blank lines; on provider failure or an
unusable reply the singleton `[query]` is returned. -/
def split_query_if_needed (gen : GenCall → Except Unit String) (query : String) :
    List String × List ProvCall :=
  match gen (.splitQ query) with
  | .error _ => ([query], [.genP (.splitQ query)])
  | .ok t =>
    let subs := usableSubs t
    (if subs.isEmpty then [query] else subs, [.genP (.splitQ query)])

/-! ## Response generation (src/core/retrieval.py, `generate_response`) -/

/-- The low-confidence phrases checked against `response.text.lower()`. -/
def lowConfidencePhrases : List String :=
  ["i don't know", "i'm not sure", "not enough information", "cannot determine"]

/-- `any(phrase in response.text.lower() for phrase in [...])`. -/
def lowConfidence (text : String) : Bool :=
  lowConfidencePhrases.any fun p => strContains (pyLower text) p

/-- The context block: `"\n\n".join(f"**{chunk.type.upper()}**:\n{chunk.content}")`
(ASCII model of `upper`). -/
def contextStr (chunks : List DocumentChunk) : String :=
  String.intercalate "\n\n"
    (chunks.map fun c => "**" ++ ⟨c.type.data.map Char.toUpper⟩ ++ "**:\n" ++ c.content)

/-- The detail string of the `GenerationError` raised on an empty context. -/
def emptyContextMsg : String :=
  "Your question doesn’t seem to be related to the uploaded document."

/-- The source list comprehension `chunk.metadata['doc_id']` etc.; a missing
dict or key raises (and is later re-wrapped as a `GenerationError`). -/
def sourcesOf : List DocumentChunk → Except Unit (List Source)
  | [] => .ok []
  | c :: rest =>
    match c.metadata with
    | none => .error ()
    | some m =>
      match metaLookup m "doc_id" with
      | none => .error ()
      | some v =>
        (sourcesOf rest).map fun tail =>
          { doc_id := mvalStr v, page := c.page_number, type := c.type } :: tail

/-- `MultimodalRetriever.generate_response`.  An empty chunk list raises a
`GenerationError` before the `try` block; inside it, a provider failure, an
empty or low-confidence reply, and a missing `doc_id` are all re-raised as
`GenerationError` by the blanket `except` clause (whose message embeds the
original exception's rendering; only its kind matters to the callers). -/
def generate_response (gen : GenCall → Except Unit String) (query : String)
    (context_chunks : List DocumentChunk) :
    Except PipeError QueryResponse × List ProvCall :=
  if context_chunks.isEmpty then
    (.error (.generation emptyContextMsg), [])
  else
    let call := GenCall.answerQ query (contextStr context_chunks)
    match gen call with
    | .error _ =>
      (.error (.generation "Response generation failed: provider error"), [.genP call])
    | .ok text =>
      if text.isEmpty || lowConfidence text then
        (.error (.generation
          "Response generation failed: Sorry, no relevant answer could be found in the document."),
         [.genP call])
      else
        match sourcesOf context_chunks with
        | .error _ =>
          (.error (.generation "Response generation failed: missing doc_id"), [.genP call])
        | .ok srcs =>
          (.ok { answer := pyStrip text
                 sources := srcs
                 formatted_response := detectSpecialContent text },
           [.genP call])

/-! ## End-to-end pipeline (src/core/retrieval.py, `end_to_end_query`) -/

/-- The answer cache `self.cache`, keyed by `(document_id, normalized_question)`. -/
abbrev Cache := List ((String × String) × QueryResponse)

/-- Dict lookup `cache_key in self.cache` / `self.cache[cache_key]`. -/
def cacheLookup : Cache → String × String → Option QueryResponse
  | [], _ => none
  | (k, v) :: rest, key => if k = key then some v else cacheLookup rest key

/-- The `for sub_q in sub_questions` loop of `end_to_end_query`: retrieval
failures propagate immediately; a `GenerationError` for a sub-question is
caught (`except GenerationError`) and its message appended to the answers,
the loop continuing; any other error from generation would propagate (that
arm is unreachable, `generate_response` only raises `GenerationError`).
Sources accumulate in sub-question order. -/
def answerLoop (P : Providers) (document_id : String) (top_k : Int) :
    List String → Except PipeError (List String × List Source) × List ProvCall
  | [] => (.ok ([], []), [])
  | q :: rest =>
    match retrieve P q document_id none top_k with
    | (.error e, rlog) => (.error e, rlog)
    | (.ok chunks, rlog) =>
      match generate_response P.gen q (chunks.take 3) with
      | (.error (.generation m), glog) =>
        match answerLoop P document_id top_k rest with
        | (.error e, tlog) => (.error e, rlog ++ glog ++ tlog)
        | (.ok (answers, sources), tlog) =>
          (.ok (m :: answers, sources), rlog ++ glog ++ tlog)
      | (.error (.retrieval m), glog) => (.error (.retrieval m), rlog ++ glog)
      | (.ok resp, glog) =>
        match answerLoop P document_id top_k rest with
        | (.error e, tlog) => (.error e, rlog ++ glog ++ tlog)
        | (.ok (answers, sources), tlog) =>
          (.ok (resp.answer :: answers, resp.sources ++ sources), rlog ++ glog ++ tlog)

/-- The final `QueryResponse` assembled by `end_to_end_query`:
`"\n\n".join(answers)` with the accumulated sources and the special-content
detection run on the joined answer. -/
def finalResp (answers : List String) (sources : List Source) : QueryResponse :=
  { answer := String.intercalate "\n\n" answers
    sources := sources
    formatted_response := detectSpecialContent (String.intercalate "\n\n" answers) }

/-- `MultimodalRetriever.end_to_end_query`, the core's `answer` operation.
The cache is checked first, keyed by the trimmed lower-cased raw question;
on a hit nothing else runs.  On a miss the query is corrected, split, and the
sub-question loop runs; a successful final response is cached before being
returned.  The result carries the updated cache and the collaborator call
trace. -/
def end_to_end_query (P : Providers) (cache : Cache) (top_k : Int)
    (query : String) (document_id : String) :
    Except PipeError QueryResponse × Cache × List ProvCall :=
  match cacheLookup cache (document_id, normalize_question query) with
  | some r => (.ok r, cache, [])
  | none =>
    match correct_query P.gen query with
    | (corrected, log1) =>
      match split_query_if_needed P.gen corrected with
      | (subs, log2) =>
        match answerLoop P document_id top_k subs with
        | (.error e, log3) => (.error e, cache, log1 ++ log2 ++ log3)
        | (.ok (answers, sources), log3) =>
          (.ok (finalResp answers sources),
           ((document_id, normalize_question query), finalResp answers sources) :: cache,
           log1 ++ log2 ++ log3)

/-! ## Response classification (src/multimodel/chains/formatters.py) -/

/-- The structured payload selected by `MultimodalFormatter.format_response`:
first table, then image references, else plain text. -/
inductive Payload where
  | table (content : String)
  | image (references : List String) (content : String)
  | text (content : String)
deriving DecidableEq

/-- The `type` field of a payload dict. -/
def payloadKind : Payload → String
  | .table _ => "table"
  | .image _ _ => "image"
  | .text _ => "text"

/-- Scanner for the first closing fence: the shortest prefix of the input
before an occurrence of `"\n``` "`-without-the-space, i.e. the lazy `(.*?)`
body of the regex ```` ```markdown\n(.*?)\n``` ````, or `none` when the input
holds no closing fence. -/
def takeUntilClose (cs : List Char) : Option (List Char) :=
  match cs with
  | [] => none
  | c :: rest =>
    if ("\n```".data).isPrefixOf cs then some []
    else (takeUntilClose rest).map (c :: ·)

/-- Leftmost match of `re.findall(r"```markdown\n(.*?)\n```", text, DOTALL)`:
at each position, an opening fence with some later closing fence yields the
lazy body; otherwise the scan advances one character. -/
def findFirstFence (cs : List Char) : Option (List Char) :=
  match cs with
  | [] => none
  | _ :: rest =>
    if ("```markdown\n".data).isPrefixOf cs then
      match takeUntilClose (cs.drop 12) with
      | some body => some body
      | none => findFirstFence rest
    else findFirstFence rest

/-- The lazy `(.*?)\]` tail of the image-marker regex: capture up to the first
`']'`, failing on a newline first (`.` does not match `'\n'` without DOTALL).
Returns the capture and the remaining input after the `']'`. -/
def grabNoNL : List Char → Option (List Char × List Char)
  | [] => none
  | ']' :: rest => some ([], rest)
  | '\n' :: _ => none
  | c :: rest => (grabNoNL rest).map fun (cap, rem) => (c :: cap, rem)

/-- The `\s?(.*?)\]` tail of `r'\[Image:\s?(.*?)\]'`: the greedy-optional
whitespace is consumed first, backtracking to the empty match if needed. -/
def matchAfterColon (cs : List Char) : Option (List Char × List Char) :=
  match cs with
  | [] => none
  | c :: rest =>
    if pyIsSpace c then
      match grabNoNL rest with
      | some r => some r
      | none => grabNoNL cs
    else grabNoNL cs

/-- Fuel-driven scan for `re.findall(r'\[Image:\s?(.*?)\]', text)`: each step
either consumes a whole match (at least eight characters) or advances one
character, so fuel equal to the input length suffices. -/
def imageRefsAux : Nat → List Char → List (List Char)
  | 0, _ => []
  | fuel + 1, cs =>
    match cs with
    | [] => []
    | _ :: rest =>
      if ("[Image:".data).isPrefixOf cs then
        match matchAfterColon (cs.drop 7) with
        | some (cap, rem) => cap :: imageRefsAux fuel rem
        | none => imageRefsAux fuel rest
      else imageRefsAux fuel rest

/-- `re.findall(r'\[Image:\s?(.*?)\]', text)`: all non-overlapping leftmost
captures. -/
def imageRefs (cs : List Char) : List (List Char) :=
  imageRefsAux cs.length cs

/-- The classification performed by `MultimodalFormatter.format_response` on
the raw model output (the `structured_payload` of the spec's `classify`):
`extract_tables` first — its first capture, stripped, with markdown format —
then `extract_images` with the captured references, else plain text. -/
def classifyPayload (text : String) : Payload :=
  match findFirstFence text.data with
  | some body => .table (pyStrip ⟨body⟩)
  | none =>
    match imageRefs text.data with
    | [] => .text text
    | refs => .image (refs.map fun r => ⟨r⟩) text

/-! ## Spec-side ranking definitions

The next definitions are not translations of the source: they formalise, in
the spec's own words, the two-stage ranking that §4.5 of the specification
attributes to the retriever, so that the code's behaviour can be compared
against them. -/

/-- Update a per-document maximum table with one scored chunk, keeping
first-seen document order. -/
def updateMax : List (String × Rat) → String × Rat → List (String × Rat)
  | [], p => [p]
  | (d, s) :: rest, (d', s') =>
    if d = d' then (d, if s < s' then s' else s) :: rest
    else (d, s) :: updateMax rest (d', s')

/-- Per-document maxima of a scored chunk list, in first-seen order. -/
def groupMax (scored : List (String × Rat)) : List (String × Rat) :=
  scored.foldl updateMax []

/-- Insertion into a list sorted by descending score. -/
def insertDesc (p : String × Rat) : List (String × Rat) → List (String × Rat)
  | [] => [p]
  | q :: rest => if q.2 < p.2 then p :: q :: rest else q :: insertDesc p rest

/-- Sort a scored list by descending score (stable). -/
def sortDesc (l : List (String × Rat)) : List (String × Rat) :=
  l.foldr insertDesc []

/-- Modelled from the spec, §4.5 step 2: the document stage the specification
describes — group corpus-wide scored chunks by `document_id`, keep the
maximum score per document, and sort documents descending by that maximum. -/
def specDocumentStage (scored : List (String × Rat)) : List String :=
  (sortDesc (groupMax scored)).map Prod.fst

/-- Modelled from the spec, §4.5 step 3: the chunk stage the specification
describes — sort a merged pool of scored chunks descending by score and
truncate to `top_k`. -/
def specChunkStage (pool : List (String × Rat)) (top_k : Nat) : List String :=
  ((sortDesc pool).take top_k).map Prod.fst

/-! ## Concrete fixtures used by witnesses and counterexamples -/

/-- An empty store reply. -/
def emptyRaw : ChromaRaw :=
  { ids := [], documents := [], metadatas := [], distances := [] }

/-- Providers whose generation calls always fail, whose embedder returns a
fixed vector, and whose store is empty. -/
def Pfail : Providers :=
  { gen := fun _ => .error ()
    embed := fun _ => .ok [1]
    store := fun _ => emptyRaw }

/-- Store holding the corpus of the spec's document-stage example: chunks of
documents A, A, B with scores 0.9, 0.2, 0.5, returned in store-native order
(by ascending distance). -/
def corpusAB : ChromaRaw :=
  { ids := ["a1", "b1", "a2"]
    documents := [some "alpha one", some "beta one", some "alpha two"]
    metadatas := [[("doc_id", .str "A")], [("doc_id", .str "B")], [("doc_id", .str "A")]]
    distances := [mkRat 1 10, mkRat 1 2, mkRat 4 5] }

/-- Providers serving `corpusAB` for every store query. -/
def PcorpusAB : Providers :=
  { gen := fun _ => .error ()
    embed := fun _ => .ok [1]
    store := fun _ => corpusAB }

/-- Store replying with five chunks whose scores are not in descending
order (store-native order is whatever the store sends back). -/
def pool5 : ChromaRaw :=
  { ids := ["u", "v", "w", "x", "y"]
    documents := [some "u", some "v", some "w", some "x", some "y"]
    metadatas := [[("doc_id", .str "D")], [("doc_id", .str "D")], [("doc_id", .str "D")],
                  [("doc_id", .str "D")], [("doc_id", .str "D")]]
    distances := [mkRat 1 2, mkRat 1 10, mkRat 9 10, mkRat 3 10, mkRat 7 10] }

/-- Providers serving `pool5` for every store query. -/
def Ppool5 : Providers :=
  { gen := fun _ => .error ()
    embed := fun _ => .ok [1]
    store := fun _ => pool5 }

/-- A five-character text chunk used to exercise the splitting step. -/
def tinyChunk : DocumentChunk :=
  { content := "abcde"
    type := "text"
    page_number := some 2
    metadata := some [("k", .str "v")] }

/-- An oversized parent chunk that carries a chunk-level `doc_id`. -/
def cexParent : DocumentChunk :=
  { content := "ab", type := "text", doc_id := some "D" }

/-- A stored result with empty metadata. -/
def bareItem : ResultItem :=
  { id := "i0", document := "some text", metadata := [], score := 1 }

/-- A generation oracle that replies with blank lines only. -/
def genBlank : GenCall → Except Unit String := fun _ => .ok "  \n \n"

/-- A generation oracle whose answer is a low-confidence phrase in mixed
case. -/
def genLow : GenCall → Except Unit String := fun _ => .ok "I DON'T know that."

/-- The answer cached for the cache-hit scenario. -/
def cachedResp : QueryResponse :=
  { answer := "cached", sources := [], formatted_response := none }

/-- A cache already holding the key of document D and question hello. -/
def hitCache : Cache := [(("D", "hello"), cachedResp)]

/-- The response computed by `Pfail` for the question "Hi " on document D. -/
def missResp : QueryResponse :=
  { answer := emptyContextMsg, sources := [], formatted_response := none }

/-- The cache state after a first miss call on the question "Hi ". -/
def missCache : Cache := [(("D", "hi"), missResp)]

/-- The collaborator call trace of a first miss call on the question "Hi ". -/
def missLog : List ProvCall :=
  [.genP (.correction "Hi "), .genP (.splitQ "Hi "), .embedP "Hi ",
   .storeP (mkQueryArgs (some "Hi ") (some [1]) (some "D") none 5)]

/-! ## Helper lemmas -/

/-- Concatenating the slices produced by `chopAux` restores the input, for a
positive slice width and sufficient fuel. -/
theorem chopAux_flatten (fuel : Nat) :
    ∀ (l : List Char) (m : Nat), 1 ≤ m → l.length ≤ fuel →
      (chopAux fuel l m).flatten = l := by
  induction fuel with
  | zero =>
    intro l m _ hl
    have hnil : l = [] := List.eq_nil_of_length_eq_zero (Nat.le_zero.mp hl)
    subst hnil
    simp [chopAux]
  | succ n ih =>
    intro l m hm hl
    cases l with
    | nil => simp [chopAux]
    | cons c cs =>
      have hdrop : ((c :: cs).drop m).length ≤ n := by
        rw [List.length_drop]
        have h1 : cs.length + 1 ≤ n + 1 := by simpa using hl
        omega
      calc (chopAux (n + 1) (c :: cs) m).flatten
          = (c :: cs).take m ++ (chopAux n ((c :: cs).drop m) m).flatten := by
            simp [chopAux]
        _ = (c :: cs).take m ++ (c :: cs).drop m := by rw [ih _ m hm hdrop]
        _ = c :: cs := List.take_append_drop m (c :: cs)

/-- Concatenating the slices produced by `chop` restores the input. -/
theorem chop_flatten (l : List Char) (m : Nat) (hm : 0 < m) :
    (chop l m).flatten = l := by
  unfold chop
  rw [if_neg (Nat.pos_iff_ne_zero.mp hm)]
  exact chopAux_flatten l.length l m hm le_rfl

/-! ## Claim C9 -/

/-- Claim C9, amended.  For a chunk whose content exceeds the maximum length,
`split_large_chunks` produces ordered parts whose in-order concatenation is
the original content, each part carrying the parent's `metadata` and `type`
(the chunk-level `doc_id` field, by contrast, is not copied to the parts);
chunks at or below the maximum length pass through unchanged. -/
theorem c9_split_reconstitution (chunk : DocumentChunk) (m : Nat) (hm : 0 < m) :
    ((split_large_chunks [chunk] m).map fun c => c.content.data).flatten = chunk.content.data ∧
    (∀ p ∈ split_large_chunks [chunk] m, p.metadata = chunk.metadata ∧ p.type = chunk.type) ∧
    (chunk.content.length ≤ m → split_large_chunks [chunk] m = [chunk]) := by
  have hsingle : split_large_chunks [chunk] m = splitChunkOne m chunk := by
    simp [split_large_chunks]
  by_cases hlen : chunk.content.length > m
  · have hone : splitChunkOne m chunk =
        (chop chunk.content.data m).map fun part =>
          { content := ⟨part⟩
            type := chunk.type
            page_number := chunk.page_number
            metadata := chunk.metadata } := by
      unfold splitChunkOne
      rw [if_pos hlen]
    refine ⟨?_, ?_, ?_⟩
    · rw [hsingle, hone, List.map_map]
      have : ((fun c : DocumentChunk => c.content.data) ∘
          fun part : List Char =>
            ({ content := ⟨part⟩, type := chunk.type, page_number := chunk.page_number,
               metadata := chunk.metadata } : DocumentChunk)) = id := by
        funext part
        rfl
      rw [this, List.map_id]
      exact chop_flatten chunk.content.data m hm
    · intro p hp
      rw [hsingle, hone] at hp
      obtain ⟨part, _, hpart⟩ := List.mem_map.mp hp
      subst hpart
      exact ⟨rfl, rfl⟩
    · intro hle
      omega
  · have hone : splitChunkOne m chunk = [chunk] := by
      unfold splitChunkOne
      rw [if_neg hlen]
    refine ⟨?_, ?_, ?_⟩
    · rw [hsingle, hone]
      simp
    · intro p hp
      rw [hsingle, hone] at hp
      simp at hp
      subst hp
      exact ⟨rfl, rfl⟩
    · intro _
      rw [hsingle, hone]

/-- Witness for `c9_split_reconstitution` at a five-character chunk and
maximum length two. -/
theorem c9_witness :
    0 < 2 ∧
    (((split_large_chunks [tinyChunk] 2).map fun c => c.content.data).flatten =
        tinyChunk.content.data ∧
      (∀ p ∈ split_large_chunks [tinyChunk] 2,
        p.metadata = tinyChunk.metadata ∧ p.type = tinyChunk.type) ∧
      (tinyChunk.content.length ≤ 2 → split_large_chunks [tinyChunk] 2 = [tinyChunk])) :=
  ⟨by decide, c9_split_reconstitution tinyChunk 2 (by decide)⟩

/-- Counterexample to claim C9 as stated: the parts produced for an oversized
chunk do not share the parent's `doc_id` — the constructor call in
`split_large_chunks` omits it, so it resets to `None`. -/
theorem c9_counterexample :
    ((split_large_chunks [cexParent] 1).map fun p => p.doc_id) = [none, none] ∧
    cexParent.doc_id = some "D" ∧
    ¬ ∀ p ∈ split_large_chunks [cexParent] 1, p.doc_id = cexParent.doc_id := by
  refine ⟨by decide, by decide, ?_⟩
  intro h
  have := h { content := "a", type := "text" } (by decide)
  simp [cexParent] at this

/-! ## Claim C10 -/

/-- Claim C10: the retriever's result formatting fills non-null defaults —
a stored result whose metadata lacks a `type` field yields a chunk of type
`"text"`, and one whose metadata lacks a `page` field yields page number
`-1`; `_format_results` applies this to every returned chunk. -/
theorem c10_format_defaults (results : List ResultItem) (item : ResultItem) :
    formatResults results = results.map formatChunk ∧
    (metaLookup item.metadata "type" = none → (formatChunk item).type = "text") ∧
    (metaLookup item.metadata "page" = none → (formatChunk item).page_number = some (-1)) := by
  refine ⟨rfl, ?_, ?_⟩
  · intro h
    simp [formatChunk, pyGetStrD, h]
  · intro h
    simp [formatChunk, pyGetIntD, h]

/-- Witness for `c10_format_defaults` at a result with empty metadata. -/
theorem c10_witness :
    metaLookup bareItem.metadata "type" = none ∧
    metaLookup bareItem.metadata "page" = none ∧
    (formatChunk bareItem).type = "text" ∧
    (formatChunk bareItem).page_number = some (-1) :=
  ⟨by decide, by decide,
   (c10_format_defaults [] bareItem).2.1 (by decide),
   (c10_format_defaults [] bareItem).2.2 (by decide)⟩

/-! ## Claim C7 -/

/-- Claim C7: query correction returns the original question unchanged when
the generation provider fails, and decomposition returns the singleton list
when the provider fails or returns nothing usable; both are total functions
(no error propagates — failures of these best-effort steps are absorbed). -/
theorem c7_best_effort_fallbacks (gen : GenCall → Except Unit String) (query : String) :
    (gen (.correction query) = .error () → (correct_query gen query).1 = query) ∧
    (gen (.splitQ query) = .error () → (split_query_if_needed gen query).1 = [query]) ∧
    (∀ t, gen (.splitQ query) = .ok t → usableSubs t = [] →
      (split_query_if_needed gen query).1 = [query]) := by
  refine ⟨?_, ?_, ?_⟩
  · intro h
    unfold correct_query
    rw [h]
  · intro h
    unfold split_query_if_needed
    rw [h]
  · intro t h hu
    unfold split_query_if_needed
    rw [h]
    simp [hu]

/-- Witness for `c7_best_effort_fallbacks`: a failing provider leaves the
question unchanged and yields the singleton decomposition, and a blank
(unusable) reply also yields the singleton decomposition. -/
theorem c7_witness :
    Pfail.gen (.correction "hello wrold") = .error () ∧
    (correct_query Pfail.gen "hello wrold").1 = "hello wrold" ∧
    (split_query_if_needed Pfail.gen "hello wrold").1 = ["hello wrold"] ∧
    genBlank (.splitQ "hello wrold") = .ok "  \n \n" ∧
    usableSubs "  \n \n" = [] ∧
    (split_query_if_needed genBlank "hello wrold").1 = ["hello wrold"] :=
  ⟨by decide,
   (c7_best_effort_fallbacks Pfail.gen "hello wrold").1 (by decide),
   (c7_best_effort_fallbacks Pfail.gen "hello wrold").2.1 (by decide),
   by decide,
   by decide,
   (c7_best_effort_fallbacks genBlank "hello wrold").2.2 "  \n \n" (by decide) (by decide)⟩

/-! ## Claim C5 -/

/-- Claim C5: `generate_response` fails with a generation error whenever the
context chunk list is empty, whenever the raw model output contains one of
the phrases "i don't know", "not enough information", "cannot determine" as
a case-insensitive substring, and whenever the raw output is empty; none of
these cases yields a success. -/
theorem c5_generate_response_failures (gen : GenCall → Except Unit String)
    (query : String) (chunks : List DocumentChunk) :
    (generate_response gen query []).1 = .error (.generation emptyContextMsg) ∧
    (∀ text, chunks ≠ [] →
      gen (.answerQ query (contextStr chunks)) = .ok text →
      (strContains (pyLower text) "i don't know" ||
       strContains (pyLower text) "not enough information" ||
       strContains (pyLower text) "cannot determine") = true →
      ∃ m, (generate_response gen query chunks).1 = .error (.generation m)) ∧
    (chunks ≠ [] → gen (.answerQ query (contextStr chunks)) = .ok "" →
      ∃ m, (generate_response gen query chunks).1 = .error (.generation m)) := by
  refine ⟨rfl, ?_, ?_⟩
  · intro text hne hgen hphrase
    have hemp : chunks.isEmpty = false := by
      cases chunks with
      | nil => exact absurd rfl hne
      | cons a l => rfl
    have hlow : lowConfidence text = true := by
      simp only [Bool.or_eq_true] at hphrase
      simp only [lowConfidence, lowConfidencePhrases, List.any_cons, List.any_nil,
        Bool.or_eq_true, Bool.or_false]
      tauto
    refine ⟨"Response generation failed: Sorry, no relevant answer could be found in the document.", ?_⟩
    unfold generate_response
    rw [hemp]
    simp only [Bool.false_eq_true, if_false]
    rw [hgen]
    simp [hlow]
  · intro hne hgen
    have hemp : chunks.isEmpty = false := by
      cases chunks with
      | nil => exact absurd rfl hne
      | cons a l => rfl
    refine ⟨"Response generation failed: Sorry, no relevant answer could be found in the document.", ?_⟩
    unfold generate_response
    rw [hemp]
    simp only [Bool.false_eq_true, if_false]
    rw [hgen]
    have h0 : ("" : String).isEmpty = true := by decide
    simp [h0]

/-- Witness for `c5_generate_response_failures`: the empty-context case, and
a mixed-case "I DON'T know" reply over a non-empty context. -/
theorem c5_witness :
    (generate_response genLow "q" []).1 = .error (.generation emptyContextMsg) ∧
    ([tinyChunk] ≠ ([] : List DocumentChunk)) ∧
    genLow (.answerQ "q" (contextStr [tinyChunk])) = .ok "I DON'T know that." ∧
    (strContains (pyLower "I DON'T know that.") "i don't know" ||
     strContains (pyLower "I DON'T know that.") "not enough information" ||
     strContains (pyLower "I DON'T know that.") "cannot determine") = true ∧
    (∃ m, (generate_response genLow "q" [tinyChunk]).1 = .error (.generation m)) :=
  ⟨(c5_generate_response_failures genLow "q" [tinyChunk]).1,
   by decide, by decide, by decide,
   (c5_generate_response_failures genLow "q" [tinyChunk]).2.1 "I DON'T know that."
     (by decide) (by decide) (by decide)⟩

/-! ## Claim C6 -/

/-- Claim C6, amended: the store wrapper's `query` fails with its
invalid-argument `ValueError` exactly when neither a truthy query text nor a
truthy query embedding is supplied; in every other case — including a call
supplying both — the store is queried. -/
theorem c6_query_validation (store : QueryArgs → ChromaRaw) (query_text : Option String)
    (query_embedding : Option (List Rat)) (document_id : Option String)
    (filter_types : Option (List String)) (n_results : Int) :
    (∃ m, (chromaQuery store query_text query_embedding document_id
        filter_types n_results).1 = .error m) ↔
      (pyTruthyStr query_text = false ∧ pyTruthyList query_embedding = false) := by
  unfold chromaQuery
  cases hguard : (!pyTruthyStr query_text && !pyTruthyList query_embedding) with
  | true =>
    simp only [Bool.and_eq_true, Bool.not_eq_true'] at hguard
    simp [hguard.1, hguard.2]
  | false =>
    simp only [Bool.and_eq_false_iff, Bool.not_eq_false'] at hguard
    simp only [Bool.false_eq_true, if_false]
    constructor
    · rintro ⟨m, hm⟩
      simp at hm
    · rintro ⟨h1, h2⟩
      rcases hguard with h | h
      · rw [h1] at h
        cases h
      · rw [h2] at h
        cases h

/-- Counterexample to claim C6 as stated: a call supplying both a query text
and a query embedding is executed against the store (here returning the empty
result list), not rejected with an invalid-argument error. -/
theorem c6_counterexample :
    (chromaQuery (fun _ => emptyRaw) (some "hello") (some [1]) (some "D") none 5).1 =
      .ok [] ∧
    ¬ ∃ m, (chromaQuery (fun _ => emptyRaw) (some "hello") (some [1]) (some "D")
        none 5).1 = .error m := by
  constructor
  · decide
  · rintro ⟨m, hm⟩
    rw [show (chromaQuery (fun _ => emptyRaw) (some "hello") (some [1]) (some "D")
        none 5).1 = .ok [] from by decide] at hm
    cases hm

/-! ## Claim C8 -/

/-- Claim C8: the classifier of `format_response` is table-first — a text
holding a fenced markdown-table block is classified `table` (even when it
also holds image markers), else a text holding at least one image marker is
classified `image`, else the classification is `text`. -/
theorem c8_classify_order (text : String) :
    (findFirstFence text.data ≠ none → payloadKind (classifyPayload text) = "table") ∧
    (findFirstFence text.data = none → imageRefs text.data ≠ [] →
      payloadKind (classifyPayload text) = "image") ∧
    (findFirstFence text.data = none → imageRefs text.data = [] →
      payloadKind (classifyPayload text) = "text") := by
  refine ⟨?_, ?_, ?_⟩
  · intro h
    unfold classifyPayload
    cases hf : findFirstFence text.data with
    | none => exact absurd hf h
    | some body => simp [payloadKind]
  · intro hf hi
    unfold classifyPayload
    rw [hf]
    cases hr : imageRefs text.data with
    | nil => exact absurd hr hi
    | cons r rs => simp [payloadKind]
  · intro hf hi
    unfold classifyPayload
    rw [hf, hi]
    rfl

/-- Witness for `c8_classify_order`: a text holding both a fenced table and
an image marker is classified `table`; an image marker alone gives `image`;
a plain sentence gives `text`. -/
theorem c8_witness :
    findFirstFence ("[Image: x]\n```markdown\n|a|\n```").data ≠ none ∧
    payloadKind (classifyPayload "[Image: x]\n```markdown\n|a|\n```") = "table" ∧
    findFirstFence ("[Image: a cat]").data = none ∧
    imageRefs ("[Image: a cat]").data ≠ [] ∧
    payloadKind (classifyPayload "[Image: a cat]") = "image" ∧
    findFirstFence ("plain sentence").data = none ∧
    imageRefs ("plain sentence").data = [] ∧
    payloadKind (classifyPayload "plain sentence") = "text" :=
  ⟨by decide,
   (c8_classify_order "[Image: x]\n```markdown\n|a|\n```").1 (by decide),
   by decide, by decide,
   (c8_classify_order "[Image: a cat]").2.1 (by decide) (by decide),
   by decide, by decide,
   (c8_classify_order "plain sentence").2.2 (by decide) (by decide)⟩

/-- Reduction of `retrieve` once the embedding call has succeeded. -/
theorem retrieve_ok_embed (P : Providers) (query document_id : String)
    (filter_types : Option (List String)) (top_k : Int) (emb : List Rat)
    (he : P.embed query = .ok emb) :
    retrieve P query document_id filter_types top_k =
      match chromaQuery P.store (some query) (some emb) (some document_id)
          filter_types top_k with
      | (.error msg, log) =>
        (.error (.retrieval ("Retrieval failed: " ++ msg)), .embedP query :: log)
      | (.ok results, log) => (.ok (formatResults results), .embedP query :: log) := by
  unfold retrieve
  rw [he]

/-! ## Claim C1 -/

/-- Claim C1, amended: the retriever has no document stage.  A call whose
document scope is blank issues a single corpus-wide chunk query (its
`doc_id` filter is absent) and returns the processed store reply directly,
formatted in store order — documents are never grouped or ranked by a
per-document maximum. -/
theorem c1_no_document_stage (P : Providers) (query : String)
    (filter_types : Option (List String)) (top_k : Int) (emb : List Rat)
    (r : List DocumentChunk) :
    P.embed query = .ok emb →
    (retrieve P query "" filter_types top_k).1 = .ok r →
    (mkQueryArgs (some query) (some emb) (some "") filter_types top_k).whereDocId = none ∧
    r = formatResults (processReply
      (P.store (mkQueryArgs (some query) (some emb) (some "") filter_types top_k))) := by
  intro he hr
  have hblank : pyTruthyStr (some "") = false := by decide
  refine ⟨by simp [mkQueryArgs, hblank], ?_⟩
  rw [retrieve_ok_embed P query "" filter_types top_k emb he] at hr
  unfold chromaQuery at hr
  cases hguard : (!pyTruthyStr (some query) && !pyTruthyList (some emb)) with
  | true =>
    rw [hguard] at hr
    simp at hr
  | false =>
    rw [hguard] at hr
    simp at hr
    exact hr.symm

/-- Witness for `c1_no_document_stage` on the corpus of documents A and B. -/
theorem c1_witness :
    PcorpusAB.embed "q" = .ok [1] ∧
    (retrieve PcorpusAB "q" "" none 5).1 = .ok (formatResults (processReply corpusAB)) ∧
    (mkQueryArgs (some "q") (some [1]) (some "") none 5).whereDocId = none ∧
    formatResults (processReply corpusAB) =
      formatResults (processReply
        (PcorpusAB.store (mkQueryArgs (some "q") (some [1]) (some "") none 5))) :=
  ⟨by decide, by decide,
   (c1_no_document_stage PcorpusAB "q" none 5 [1] (formatResults (processReply corpusAB))
      (by decide) (by decide)).1,
   (c1_no_document_stage PcorpusAB "q" none 5 [1] (formatResults (processReply corpusAB))
      (by decide) (by decide)).2⟩

/-- Counterexample to claim C1 as stated: on the spec's own corpus — chunk
scores A:0.9, A:0.2, B:0.5 — a scope-free retrieval returns the raw chunk
sequence, whose document ids read A, B, A; no per-document maximum ranking
(which would read A, B) is computed anywhere. -/
theorem c1_counterexample :
    ((retrieve PcorpusAB "the question" "" none 5).1).map
        (fun r => r.map fun c => pyGetStrD (c.metadata.getD []) "doc_id" "") =
      .ok ["A", "B", "A"] ∧
    specDocumentStage [("A", mkRat 9 10), ("A", mkRat 1 5), ("B", mkRat 1 2)] = ["A", "B"] ∧
    (["A", "B", "A"] : List String) ≠ ["A", "B"] := by
  refine ⟨by decide, by decide, by decide⟩

/-! ## Claim C2 -/

/-- Claim C2, amended: the chunk stage is a single store query; the code
itself performs no concatenation of per-document pools, no global sort by
score, and no truncation to `top_k` — the chunks are returned with exactly
the processed store reply's contents, in the store reply's order, whatever
its length. -/
theorem c2_no_sort_no_truncate (P : Providers) (query document_id : String)
    (filter_types : Option (List String)) (top_k : Int) (emb : List Rat)
    (r : List DocumentChunk) :
    P.embed query = .ok emb →
    (retrieve P query document_id filter_types top_k).1 = .ok r →
    r.map (fun c => c.content) =
      (processReply (P.store (mkQueryArgs (some query) (some emb) (some document_id)
        filter_types top_k))).map (fun i => i.document) := by
  intro he hr
  rw [retrieve_ok_embed P query document_id filter_types top_k emb he] at hr
  unfold chromaQuery at hr
  cases hguard : (!pyTruthyStr (some query) && !pyTruthyList (some emb)) with
  | true =>
    rw [hguard] at hr
    simp at hr
  | false =>
    rw [hguard] at hr
    simp at hr
    rw [← hr]
    unfold formatResults
    rw [List.map_map]
    rfl

/-- Witness for `c2_no_sort_no_truncate` on the five-chunk store with
`top_k = 2`. -/
theorem c2_witness :
    Ppool5.embed "q" = .ok [1] ∧
    (retrieve Ppool5 "q" "D" none 2).1 = .ok (formatResults (processReply pool5)) ∧
    (formatResults (processReply pool5)).map (fun c => c.content) =
      (processReply (Ppool5.store (mkQueryArgs (some "q") (some [1]) (some "D")
        none 2))).map (fun i => i.document) :=
  ⟨by decide, by decide,
   c2_no_sort_no_truncate Ppool5 "q" "D" none 2 [1] (formatResults (processReply pool5))
     (by decide) (by decide)⟩

/-- Counterexample to claim C2 as stated: with `top_k = 2` and a store reply
of five chunks whose scores arrive unsorted, the code returns all five chunks
in the store's order — not the two highest-scoring in descending order. -/
theorem c2_counterexample :
    ((retrieve Ppool5 "q" "D" none 2).1).map (fun r => r.map fun c => c.content) =
      .ok ["u", "v", "w", "x", "y"] ∧
    specChunkStage [("u", mkRat 1 2), ("v", mkRat 9 10), ("w", mkRat 1 10),
      ("x", mkRat 7 10), ("y", mkRat 3 10)] 2 = ["v", "x"] ∧
    (["u", "v", "w", "x", "y"] : List String) ≠ ["v", "x"] := by
  refine ⟨by decide, by decide, by decide⟩

/-! ## Error-kind lemmas -/

/-- Every error raised by `retrieve` is a `RetrievalError`. -/
theorem retrieve_error_is_retrieval (P : Providers) (q d : String)
    (ft : Option (List String)) (k : Int) (e : PipeError) :
    (retrieve P q d ft k).1 = .error e → ∃ m, e = .retrieval m := by
  intro h
  cases he : P.embed q with
  | error u =>
    have hred : retrieve P q d ft k =
        (.error (.retrieval "Retrieval failed: embedding error"), [.embedP q]) := by
      unfold retrieve
      rw [he]
    rw [hred] at h
    simp at h
    exact ⟨_, h.symm⟩
  | ok emb =>
    rw [retrieve_ok_embed P q d ft k emb he] at h
    rcases hq : chromaQuery P.store (some q) (some emb) (some d) ft k with ⟨qres, qlog⟩
    rw [hq] at h
    cases qres with
    | error msg =>
      simp at h
      exact ⟨_, h.symm⟩
    | ok results => simp at h

/-- Every error raised by `generate_response` is a `GenerationError`. -/
theorem generate_error_is_generation (gen : GenCall → Except Unit String)
    (q : String) (cs : List DocumentChunk) (e : PipeError) :
    (generate_response gen q cs).1 = .error e → ∃ m, e = .generation m := by
  intro h
  unfold generate_response at h
  cases hemp : cs.isEmpty with
  | true =>
    rw [hemp] at h
    simp at h
    exact ⟨_, h.symm⟩
  | false =>
    rw [hemp] at h
    simp only [Bool.false_eq_true, if_false] at h
    cases hg : gen (.answerQ q (contextStr cs)) with
    | error u =>
      rw [hg] at h
      simp at h
      exact ⟨_, h.symm⟩
    | ok text =>
      rw [hg] at h
      by_cases hc : (text.isEmpty || lowConfidence text) = true
      · simp only [hc, if_true] at h
        simp at h
        exact ⟨_, h.symm⟩
      · simp only [hc, if_false] at h
        cases hs : sourcesOf cs with
        | error u =>
          rw [hs] at h
          simp at h
          exact ⟨_, h.symm⟩
        | ok srcs =>
          rw [hs] at h
          simp at h

/-- The sub-question loop either succeeds or fails with a retrieval error —
a generation error never escapes it. -/
theorem answerLoop_ok_or_retrieval (P : Providers) (d : String) (k : Int) :
    ∀ subs : List String,
      (∃ v, (answerLoop P d k subs).1 = .ok v) ∨
      (∃ m, (answerLoop P d k subs).1 = .error (.retrieval m)) := by
  intro subs
  induction subs with
  | nil => exact .inl ⟨([], []), rfl⟩
  | cons q rest ih =>
    rcases hR : retrieve P q d none k with ⟨rres, rlog⟩
    cases rres with
    | error e =>
      have he : (retrieve P q d none k).1 = .error e := by rw [hR]
      obtain ⟨m, hm⟩ := retrieve_error_is_retrieval P q d none k e he
      subst hm
      right
      refine ⟨m, ?_⟩
      simp only [answerLoop, hR]
    | ok chunks =>
      rcases hG : generate_response P.gen q (chunks.take 3) with ⟨gres, glog⟩
      cases gres with
      | error pe =>
        have hge : (generate_response P.gen q (chunks.take 3)).1 = .error pe := by rw [hG]
        obtain ⟨m, hm⟩ := generate_error_is_generation P.gen q (chunks.take 3) pe hge
        subst hm
        rcases hT : answerLoop P d k rest with ⟨tres, tlog⟩
        rcases ih with ⟨v, hv⟩ | ⟨m', hm'⟩
        · left
          rw [hT] at hv
          simp at hv
          obtain ⟨va, vb⟩ := v
          subst hv
          refine ⟨(m :: va, vb), ?_⟩
          simp only [answerLoop, hR, hG, hT]
        · right
          rw [hT] at hm'
          simp at hm'
          subst hm'
          refine ⟨m', ?_⟩
          simp only [answerLoop, hR, hG, hT]
      | ok resp =>
        rcases hT : answerLoop P d k rest with ⟨tres, tlog⟩
        rcases ih with ⟨v, hv⟩ | ⟨m', hm'⟩
        · left
          rw [hT] at hv
          simp at hv
          obtain ⟨va, vb⟩ := v
          subst hv
          refine ⟨(resp.answer :: va, resp.sources ++ vb), ?_⟩
          simp only [answerLoop, hR, hG, hT]
        · right
          rw [hT] at hm'
          simp at hm'
          subst hm'
          refine ⟨m', ?_⟩
          simp only [answerLoop, hR, hG, hT]

/-! ## Claim C3 -/

/-- Claim C3: the answer cache key pairs the document scope with the trimmed
lower-cased raw question (correction plays no role: these statements hold for
every generation oracle, and a successful miss writes exactly that key); a
call whose key is cached returns the cached response with an empty
collaborator call trace, and repeating any successful call returns the
now-cached result with an empty call trace. -/
theorem c3_cache_idempotence (P : Providers) (cache : Cache) (top_k : Int)
    (query document_id : String) :
    normalize_question query = pyLower (pyStrip query) ∧
    (∀ r, cacheLookup cache (document_id, normalize_question query) = some r →
      end_to_end_query P cache top_k query document_id = (.ok r, cache, [])) ∧
    (∀ r cache' log, cacheLookup cache (document_id, normalize_question query) = none →
      end_to_end_query P cache top_k query document_id = (.ok r, cache', log) →
      cache' = ((document_id, normalize_question query), r) :: cache) ∧
    (∀ r cache' log, end_to_end_query P cache top_k query document_id = (.ok r, cache', log) →
      end_to_end_query P cache' top_k query document_id = (.ok r, cache', [])) := by
  refine ⟨rfl, ?_, ?_, ?_⟩
  · intro r hc
    unfold end_to_end_query
    rw [hc]
  · intro r cache' log hc he
    unfold end_to_end_query at he
    rcases hcq : correct_query P.gen query with ⟨corrected, log1⟩
    rcases hsq : split_query_if_needed P.gen corrected with ⟨subs, log2⟩
    rcases hal : answerLoop P document_id top_k subs with ⟨ares, log3⟩
    cases ares with
    | error e => simp [hc, hcq, hsq, hal] at he
    | ok v =>
      obtain ⟨answers, sources⟩ := v
      simp only [hc, hcq, hsq, hal, Prod.mk.injEq, Except.ok.injEq] at he
      obtain ⟨h1, h2, _⟩ := he
      rw [← h2, h1]
  · intro r cache' log he
    cases hc : cacheLookup cache (document_id, normalize_question query) with
    | some r0 =>
      have h0 : end_to_end_query P cache top_k query document_id = (.ok r0, cache, []) := by
        unfold end_to_end_query
        rw [hc]
      rw [h0] at he
      simp only [Prod.mk.injEq, Except.ok.injEq] at he
      obtain ⟨h1, h2, _⟩ := he
      rw [← h2, ← h1]
      exact h0
    | none =>
      unfold end_to_end_query at he
      rcases hcq : correct_query P.gen query with ⟨corrected, log1⟩
      rcases hsq : split_query_if_needed P.gen corrected with ⟨subs, log2⟩
      rcases hal : answerLoop P document_id top_k subs with ⟨ares, log3⟩
      cases ares with
      | error e => simp [hc, hcq, hsq, hal] at he
      | ok v =>
        obtain ⟨answers, sources⟩ := v
        simp only [hc, hcq, hsq, hal, Prod.mk.injEq, Except.ok.injEq] at he
        obtain ⟨h1, h2, _⟩ := he
        subst h2
        have hlook : cacheLookup
            (((document_id, normalize_question query), finalResp answers sources) :: cache)
            (document_id, normalize_question query) = some (finalResp answers sources) := by
          simp [cacheLookup]
        unfold end_to_end_query
        rw [hlook, h1]

/-- Witness for `c3_cache_idempotence`: a hit returns the cached answer with
no collaborator calls; a miss on the question "Hi " caches under the key
("D", "hi") — trimmed and lower-cased raw text — and repeating the call
returns the cached result with no collaborator calls. -/
theorem c3_witness :
    cacheLookup hitCache ("D", normalize_question "hello") = some cachedResp ∧
    end_to_end_query Pfail hitCache 5 "hello" "D" = (.ok cachedResp, hitCache, []) ∧
    end_to_end_query Pfail [] 5 "Hi " "D" = (.ok missResp, missCache, missLog) ∧
    missCache = (("D", normalize_question "Hi "), missResp) :: [] ∧
    end_to_end_query Pfail missCache 5 "Hi " "D" = (.ok missResp, missCache, []) :=
  ⟨by decide,
   (c3_cache_idempotence Pfail hitCache 5 "hello" "D").2.1 cachedResp (by decide),
   by decide,
   (c3_cache_idempotence Pfail ([] : Cache) 5 "Hi " "D").2.2.1 missResp missCache missLog
     (by decide) (by decide),
   (c3_cache_idempotence Pfail ([] : Cache) 5 "Hi " "D").2.2.2 missResp missCache missLog
     (by decide)⟩

/-! ## Claim C4 -/

/-- Claim C4, amended: `end_to_end_query` never reports a generation error to
its caller — every call either succeeds or fails with a retrieval error; a
sub-question whose generation fails has the failure's human-readable message
folded into the (successful) answer list instead. -/
theorem c4_generation_failures_folded (P : Providers) (cache : Cache) (top_k : Int)
    (query document_id : String) :
    ((∃ r rest2, end_to_end_query P cache top_k query document_id = (.ok r, rest2)) ∨
     (∃ m rest2, end_to_end_query P cache top_k query document_id =
        (.error (.retrieval m), rest2))) ∧
    (∀ q m chunks,
      (retrieve P q document_id none top_k).1 = .ok chunks →
      (generate_response P.gen q (chunks.take 3)).1 = .error (.generation m) →
      (answerLoop P document_id top_k [q]).1 = .ok ([m], [])) := by
  constructor
  · cases hc : cacheLookup cache (document_id, normalize_question query) with
    | some r0 =>
      left
      refine ⟨r0, (cache, []), ?_⟩
      unfold end_to_end_query
      rw [hc]
    | none =>
      rcases hcq : correct_query P.gen query with ⟨corrected, log1⟩
      rcases hsq : split_query_if_needed P.gen corrected with ⟨subs, log2⟩
      rcases hal : answerLoop P document_id top_k subs with ⟨ares, log3⟩
      rcases answerLoop_ok_or_retrieval P document_id top_k subs with ⟨v, hv⟩ | ⟨m, hm⟩
      · left
        rw [hal] at hv
        simp at hv
        obtain ⟨answers, sources⟩ := v
        subst hv
        refine ⟨finalResp answers sources,
          (((document_id, normalize_question query), finalResp answers sources) :: cache,
           log1 ++ log2 ++ log3), ?_⟩
        unfold end_to_end_query
        simp only [hc, hcq, hsq, hal]
      · right
        rw [hal] at hm
        simp at hm
        subst hm
        refine ⟨m, (cache, log1 ++ log2 ++ log3), ?_⟩
        unfold end_to_end_query
        simp only [hc, hcq, hsq, hal]
  · intro q m chunks hR hG
    rcases hR' : retrieve P q document_id none top_k with ⟨rres, rlog⟩
    rw [hR'] at hR
    simp at hR
    subst hR
    rcases hG' : generate_response P.gen q (chunks.take 3) with ⟨gres, glog⟩
    rw [hG'] at hG
    simp at hG
    subst hG
    simp only [answerLoop, hR', hG']

/-- Witness for `c4_generation_failures_folded`: with an empty store, a
sub-question retrieves no chunks, its generation fails with the
empty-context message, and the loop succeeds with that message as the
answer. -/
theorem c4_witness :
    (retrieve Pfail "q" "D" none 5).1 = .ok [] ∧
    (generate_response Pfail.gen "q" (([] : List DocumentChunk).take 3)).1 =
      .error (.generation emptyContextMsg) ∧
    (answerLoop Pfail "D" 5 ["q"]).1 = .ok ([emptyContextMsg], []) :=
  ⟨by decide, by decide,
   (c4_generation_failures_folded Pfail [] 5 "q" "D").2 "q" emptyContextMsg []
     (by decide) (by decide)⟩

/-- Counterexample to claim C4 as stated: a run in which generation fails
(the empty-context generation error) yet `end_to_end_query` reports success,
with the failure's message folded into the answer text. -/
theorem c4_counterexample :
    (generate_response Pfail.gen "q" []).1 = .error (.generation emptyContextMsg) ∧
    (end_to_end_query Pfail [] 5 "q" "D").1 =
      .ok { answer := emptyContextMsg, sources := [], formatted_response := none } := by
  refine ⟨by decide, by decide⟩

end KA
